import Mathlib

/-!
Verification development for the web-ext run / extension-runner sources.

The JavaScript sources are shallowly embedded as executable Lean
definitions: promise chains become explicit result values, the scheduling
of already-settled promises is deterministic (list order), and side
effects such as logging and desktop notifications are dropped because no
claim observes them.
-/

namespace WebExt

/-- A JavaScript error value as observed by the run command: an optional
"code" property (for example ECONNREFUSED on socket errors) and a message.
Modelled from the spec: the errors module (src/errors) is not part of the
corpus; per spec section 7, socket refusals carry a typed code that
distinguishes them from protocol and generic errors. -/
structure JsError where
  code : Option String
  message : String
deriving DecidableEq

/-- Propositional equality of settled promise values is decidable when it
is decidable on both the error and the fulfilment payloads. -/
instance exceptDecidableEq {ε α : Type} [DecidableEq ε] [DecidableEq α] :
    DecidableEq (Except ε α) := fun a b =>
  match a, b with
  | Except.ok x, Except.ok y =>
      if h : x = y then isTrue (by rw [h]) else
        isFalse (fun hh => h (by cases hh; rfl))
  | Except.error x, Except.error y =>
      if h : x = y then isTrue (by rw [h]) else
        isFalse (fun hh => h (by cases hh; rfl))
  | Except.ok _, Except.error _ => isFalse (fun hh => Except.noConfusion hh)
  | Except.error _, Except.ok _ => isFalse (fun hh => Except.noConfusion hh)

/-- Modelled from the spec: isErrorWithCode(code, error) from the missing
errors module tests whether an error value carries the given code. -/
def isErrorWithCode (code : String) (e : JsError) : Bool :=
  e.code = some code

/-- Modelled from the spec: onlyErrorsWithCode(code, handler) from the
missing errors module builds a catch handler that handles only errors
carrying the given code and re-raises every other error unchanged. -/
def onlyErrorsWithCodeCatch {α : Type} (code : String)
    (handler : JsError → Except JsError α) (r : Except JsError α) :
    Except JsError α :=
  match r with
  | Except.ok v => Except.ok v
  | Except.error e =>
      if isErrorWithCode code e then handler e else Except.error e

/-- Outcome of one call to connectToFirefox: a connected client or a
rejection carrying a JavaScript error. -/
inductive AttemptOutcome (α : Type) where
  | ok (client : α)
  | error (e : JsError)
deriving DecidableEq

/-- Result of the whole connection-retry routine. errUndefined models the
JavaScript throw of a still-undefined lastError variable (unreachable for
any nonnegative retry budget, kept for faithfulness). -/
inductive ConnResult (α : Type) where
  | ok (client : α)
  | err (e : JsError)
  | errUndefined
deriving DecidableEq

/-- Loop body of establishConnection in src/cmd/run.js (defaultFirefoxClient):
for (let retries = 0; retries <= maxRetries; retries++) try connecting;
on an ECONNREFUSED rejection remember it as lastError and retry after the
interval; on any other rejection re-throw immediately; after the loop,
throw lastError.  The second component counts connectToFirefox calls. -/
def establishConnectionGo {α : Type} (connectToFirefox : Nat → AttemptOutcome α) :
    Nat → Nat → Option JsError → Nat → ConnResult α × Nat
  | _, 0, lastError, calls =>
      (match lastError with
       | some e => (ConnResult.err e, calls)
       | none => (ConnResult.errUndefined, calls))
  | retries, remaining + 1, _, calls =>
      match connectToFirefox retries with
      | AttemptOutcome.ok c => (ConnResult.ok c, calls + 1)
      | AttemptOutcome.error e =>
          if isErrorWithCode "ECONNREFUSED" e then
            establishConnectionGo connectToFirefox (retries + 1) remaining
              (some e) (calls + 1)
          else
            (ConnResult.err e, calls + 1)

/-- establishConnection of defaultFirefoxClient in src/cmd/run.js: the
retry loop runs attempts retries = 0 .. maxRetries (maxRetries + 1 loop
iterations). -/
def establishConnection {α : Type} (connectToFirefox : Nat → AttemptOutcome α)
    (maxRetries : Nat) : ConnResult α × Nat :=
  establishConnectionGo connectToFirefox 0 (maxRetries + 1) none 0

/-- establishConnection of defaultFirefoxClient in the legacy run module
(unnamed/part 000): attempt a connection; on an ECONNREFUSED rejection,
if retries >= maxRetries re-throw that refusal, otherwise increment the
module-level retries counter and recurse after the interval; any other
rejection is re-thrown immediately.  The fuel argument is maxRetries + 1
minus the current retries value, which bounds the recursion. -/
def legacyEstablishConnectionGo {α : Type} (connectToFirefox : Nat → AttemptOutcome α)
    (maxRetries : Nat) : Nat → Nat → Nat → ConnResult α × Nat
  | 0, _, calls => (ConnResult.errUndefined, calls)
  | fuel + 1, retries, calls =>
      match connectToFirefox retries with
      | AttemptOutcome.ok c => (ConnResult.ok c, calls + 1)
      | AttemptOutcome.error e =>
          if isErrorWithCode "ECONNREFUSED" e then
            if maxRetries ≤ retries then
              (ConnResult.err e, calls + 1)
            else
              legacyEstablishConnectionGo connectToFirefox maxRetries fuel
                (retries + 1) (calls + 1)
          else
            (ConnResult.err e, calls + 1)

/-- Entry point of the legacy establishConnection: retries starts at 0. -/
def legacyEstablishConnection {α : Type} (connectToFirefox : Nat → AttemptOutcome α)
    (maxRetries : Nat) : ConnResult α × Nat :=
  legacyEstablishConnectionGo connectToFirefox maxRetries (maxRetries + 1) 0 0

/-- Default maxRetries of defaultFirefoxClient in src/cmd/run.js. -/
def defaultFirefoxClientMaxRetries : Nat := 250

/-- Default retryInterval (milliseconds) of defaultFirefoxClient in
src/cmd/run.js. -/
def defaultFirefoxClientRetryInterval : Nat := 120

/-- Default maxRetries of defaultFirefoxClient in the legacy run module
(unnamed/part 000). -/
def legacyDefaultFirefoxClientMaxRetries : Nat := 25

/-- Default retryInterval (milliseconds) of defaultFirefoxClient in the
legacy run module (unnamed/part 000). -/
def legacyDefaultFirefoxClientRetryInterval : Nat := 120

/-- A concrete connection-refused error used for tests of the retry loop. -/
def econnRefused : JsError :=
  { code := some "ECONNREFUSED", message := "connection refused" }

/-- A connect function that refuses the first k attempts and then succeeds. -/
def refuseThenOk (k : Nat) : Nat → AttemptOutcome Unit :=
  fun n => if n < k then AttemptOutcome.error econnRefused else AttemptOutcome.ok ()

/-- A connect function that is always refused. -/
def alwaysRefused : Nat → AttemptOutcome Unit :=
  fun _ => AttemptOutcome.error econnRefused

/-! ## MultiExtensionRunner (src/extension-runners/index.js) -/

/-- The observable behaviour of one managed IExtensionRunner, as the
MultiExtensionRunner sees it: a name plus the settled result of each of
its operations (a promise either fulfils with undefined or rejects with
an error value, here drawn from an arbitrary error type). -/
structure SimRunner (ε : Type) where
  name : String
  reloadAllResult : Except ε Unit
  reloadDirResult : String → Except ε Unit
  exitResult : Except ε Unit

/-- ExtensionRunnerReloadResult from src/extension-runners: runnerName,
optional sourceDir, optional reloadError (absent on success). -/
structure ExtensionRunnerReloadResult (ε : Type) where
  runnerName : String
  sourceDir : Option String
  reloadError : Option ε
deriving DecidableEq

/-- MultiExtensionRunner.reloadAllExtensions: for every managed runner, its
reloadAllExtensions promise is wrapped with a fulfilment handler producing
a runnerName-only result and a rejection handler producing a result
carrying the error; Promise.all collects one result per runner in order
and the overall promise never rejects.  Logging and desktop notifications
(handleReloadResults) do not alter the returned array and are dropped. -/
def reloadAllExtensions {ε : Type} (runners : List (SimRunner ε)) :
    List (ExtensionRunnerReloadResult ε) :=
  runners.map fun r =>
    match r.reloadAllResult with
    | Except.ok _ => { runnerName := r.name, sourceDir := none, reloadError := none }
    | Except.error e => { runnerName := r.name, sourceDir := none, reloadError := some e }

/-- MultiExtensionRunner.reloadExtensionBySourceDir: as reloadAllExtensions
but calling each runner with the source directory and recording it in both
the fulfilment and the rejection result. -/
def reloadExtensionBySourceDir {ε : Type} (runners : List (SimRunner ε))
    (sourceDir : String) : List (ExtensionRunnerReloadResult ε) :=
  runners.map fun r =>
    match r.reloadDirResult sourceDir with
    | Except.ok _ =>
        { runnerName := r.name, sourceDir := some sourceDir, reloadError := none }
    | Except.error e =>
        { runnerName := r.name, sourceDir := some sourceDir, reloadError := some e }

/-- Promise.all over a list of already-settled unit promises: fulfils when
every member fulfilled, otherwise rejects with the error of the first
rejected member in list order (the deterministic embedding of settlement
order). -/
def promiseAllUnit {ε : Type} : List (Except ε Unit) → Except ε Unit
  | [] => Except.ok ()
  | p :: rest =>
      match p with
      | Except.error e => Except.error e
      | Except.ok _ => promiseAllUnit rest

/-- MultiExtensionRunner.exit: push runner.exit() for every managed runner
(so every exit is initiated before any is awaited; the second component
counts the initiated exits), then await Promise.all over them. -/
def multiExit {ε : Type} (runners : List (SimRunner ε)) : Except ε Unit × Nat :=
  (promiseAllUnit (runners.map (fun r => r.exitResult)), runners.length)

/-- State of the cleanup barrier built by MultiExtensionRunner.registerCleanup:
registerCleanup creates one promise per managed runner, resolved when that
runner fires the cleanup callback registered with it.  The state records
which member indices have resolved their promise so far and how often the
user callback has run. -/
structure CleanupBarrierState where
  resolved : List Nat
  callbackCalls : Nat
deriving DecidableEq

/-- Whether every one of the memberCount promises created by
registerCleanup has resolved. -/
def cleanupBarrierAllResolved (memberCount : Nat) (resolved : List Nat) : Bool :=
  (List.range memberCount).all (fun i => decide (i ∈ resolved))

/-- One member runner (index i) fires its cleanup: the corresponding
promise resolves (resolving an already-settled promise is a no-op), and
Promise.all(promises).then(cb, cb) runs the user callback exactly when the
last pending promise resolves. -/
def cleanupBarrierStep (memberCount : Nat) (s : CleanupBarrierState)
    (i : Nat) : CleanupBarrierState :=
  let resolved := i :: s.resolved
  let fires := cleanupBarrierAllResolved memberCount resolved
    && !(cleanupBarrierAllResolved memberCount s.resolved)
  { resolved := resolved
    callbackCalls := s.callbackCalls + (if fires then 1 else 0) }

/-- MultiExtensionRunner.registerCleanup observed over a trace of member
cleanup events (each event names the member runner index that reported
cleanup): returns how often the registered callback ran.  With zero
members Promise.all resolves immediately, so the callback runs at
registration time. -/
def registerCleanupCalls (memberCount : Nat) (events : List Nat) : Nat :=
  let start : CleanupBarrierState :=
    { resolved := []
      callbackCalls := if cleanupBarrierAllResolved memberCount [] then 1 else 0 }
  (events.foldl (cleanupBarrierStep memberCount) start).callbackCalls

/-! ## The run command install phase (src/cmd/run.js and the legacy module) -/

/-- Error values raised while the run command installs the extension. -/
inductive CmdError where
  | remoteTempInstallNotSupported (message : String)
  | webExtError (message : String)
  | otherError (message : String)
deriving DecidableEq

/-- Message of the WebExtError thrown by src/cmd/run.js when
installTemporaryAddon rejects with RemoteTempInstallNotSupported. -/
def tempInstallNotSupportedMessage : String :=
  "Temporary add-on installation is not supported in this version " ++
  "of Firefox (you need Firefox 49 or higher). For older Firefox " ++
  "versions, use --pre-install"

/-- Message of the WebExtError thrown by the legacy run module
(unnamed/part 000) for the same condition. -/
def legacyTempInstallNotSupportedMessage : String :=
  "Temporary add-on installation is not supported in this version " ++
  "of Firefox (you need Firefox 49 or higher). For older Firefox " ++
  "versions, use --install-to-profile"

/-- The try/catch around runner.installAsTemporaryAddon in src/cmd/run.js:
a RemoteTempInstallNotSupported rejection is replaced by a WebExtError
whose message points at the pre-install fallback; every other outcome
passes through unchanged. -/
def installAsTemporaryAddonPhase (installResult : Except CmdError String) :
    Except CmdError String :=
  match installResult with
  | Except.ok addonId => Except.ok addonId
  | Except.error (CmdError.remoteTempInstallNotSupported _) =>
      Except.error (CmdError.webExtError tempInstallNotSupportedMessage)
  | Except.error e => Except.error e

/-- The onlyInstancesOf(RemoteTempInstallNotSupported, ...) catch in the
legacy run module: same mapping with the legacy flag name in the message. -/
def legacyInstallAsTemporaryAddonPhase (installResult : Except CmdError String) :
    Except CmdError String :=
  match installResult with
  | Except.ok addonId => Except.ok addonId
  | Except.error (CmdError.remoteTempInstallNotSupported _) =>
      Except.error (CmdError.webExtError legacyTempInstallNotSupportedMessage)
  | Except.error e => Except.error e

/-! ## Chromium reload channel (modelled from the spec) -/

/-- A JSON text frame on the Chromium reload channel. -/
structure WsMessage where
  type : String
deriving DecidableEq

/-- The only control message of the Chromium reload channel. -/
def webExtReloadAllExtensionsMessage : WsMessage :=
  { type := "webExtReloadAllExtensions" }

/-- One companion WebSocket connection: an identifier and whether the
connection is currently open. -/
structure WsConnection where
  connId : Nat
  connOpen : Bool
deriving DecidableEq

/-- Modelled from the spec: the ChromiumExtensionRunner source
(src/extension-runners/chromium.js) is not part of the corpus, only its
unit test is.  Per spec section 4.5 the WebSocket server broadcasts every
control message to all currently-open companion connections, and a closed
connection never blocks delivery to the others.  A broadcast is the list
of (connection id, message) deliveries. -/
def wssBroadcast (conns : List WsConnection) (msg : WsMessage) :
    List (Nat × WsMessage) :=
  (conns.filter (fun c => c.connOpen)).map (fun c => (c.connId, msg))

/-- Modelled from the spec: ChromiumExtensionRunner.reloadAllExtensions
sends one webExtReloadAllExtensions broadcast over the reload channel. -/
def chromiumReloadAllExtensions (conns : List WsConnection) :
    List (Nat × WsMessage) :=
  wssBroadcast conns webExtReloadAllExtensionsMessage

/-- Modelled from the spec: ChromiumExtensionRunner.reloadExtensionBySourceDir
cannot target a single extension (spec sections 4.5 and 9) and degrades to
reloading every extension the companion manages, for any managed dir. -/
def chromiumReloadExtensionBySourceDir (conns : List WsConnection)
    (_sourceDir : String) : List (Nat × WsMessage) :=
  chromiumReloadAllExtensions conns

/-! ## installExtension (src/firefox/index.js) -/

/-- The part of the manifest data read by installExtension:
manifestData.applications.gecko.id, absent when the manifest carries no
gecko application id (reading it in JavaScript would then throw). -/
structure ManifestDataModel where
  geckoId : Option String
deriving DecidableEq

/-- The part of the profile object read by installExtension: the
extensions directory path (none models a falsy profile.extensionsDir) and
whether that directory already exists on disk (fs.stat vs ENOENT). -/
structure ProfileModel where
  extensionsDir : Option String
  extensionsDirExists : Bool
deriving DecidableEq

/-- A filesystem effect performed by installExtension. -/
inductive FsOp where
  | mkdir (path : String)
  | writeTextFile (path : String) (content : String)
  | copyFile (src : String) (dest : String)
deriving DecidableEq

/-- Whether an FsOp writes a plain-text file. -/
def FsOp.isWriteTextFile : FsOp → Bool
  | FsOp.writeTextFile _ _ => true
  | _ => false

/-- Whether an FsOp copies a packaged artifact. -/
def FsOp.isCopyFile : FsOp → Bool
  | FsOp.copyFile _ _ => true
  | _ => false

/-- installExtension from src/firefox/index.js: throws a WebExtError when
profile.extensionsDir is empty; creates the extensions directory when
fs.stat reports ENOENT; then, with asShadowInstall set, writes a text file
named by the gecko application id whose content is the extension source
directory path, and otherwise copies the packaged extension to id.xpi.
Resolves (with the performed filesystem operations, in order) once the
write stream has finished. -/
def installExtension (manifestData : ManifestDataModel) (profile : ProfileModel)
    (extensionPath : String) (sourceDir : String) (asShadowInstall : Bool) :
    Except CmdError (List FsOp) :=
  match profile.extensionsDir with
  | none =>
      Except.error (CmdError.webExtError "profile.extensionsDir was unexpectedly empty")
  | some dir =>
      let pre : List FsOp :=
        if profile.extensionsDirExists then [] else [FsOp.mkdir dir]
      match manifestData.geckoId with
      | none => Except.error (CmdError.otherError
          "TypeError: manifestData.applications.gecko is undefined")
      | some id =>
          if asShadowInstall then
            Except.ok (pre ++ [FsOp.writeTextFile (dir ++ "/" ++ id) sourceDir])
          else
            Except.ok (pre ++ [FsOp.copyFile extensionPath (dir ++ "/" ++ id ++ ".xpi")])

/-! ## defaultRemotePortFinder (src/firefox/index.js) -/

/-- Outcome of the probe connection attempted by defaultRemotePortFinder. -/
inductive ProbeOutcome where
  | connected
  | failed (e : JsError)
deriving DecidableEq

/-- Message of the WebExtError thrown when the probe connection succeeds. -/
def portInUseMessage (port : Nat) : String :=
  "Cannot listen on port " ++ toString port ++ " because it\x27s in use"

/-- A WebExtError as a JavaScript error value: it carries no code
property, so onlyErrorsWithCode never handles it. -/
def webExtJsError (msg : String) : JsError :=
  { code := none, message := msg }

/-- Result of defaultRemotePortFinder: the settled promise plus whether
client.disconnect() was called on the probe client. -/
structure PortFinderResult where
  result : Except JsError Nat
  disconnected : Bool
deriving DecidableEq

/-- defaultRemotePortFinder from src/firefox/index.js: connect to the
candidate port; when the connection succeeds, disconnect the probe client
and throw a WebExtError saying the port is in use; then catch with
onlyErrorsWithCode(ECONNREFUSED, return portToTry), so only a refused
probe resolves with the port and every other error is re-raised. -/
def defaultRemotePortFinder (portToTry : Nat) (probe : ProbeOutcome) :
    PortFinderResult :=
  let afterThen : Except JsError Nat × Bool :=
    match probe with
    | ProbeOutcome.connected =>
        (Except.error (webExtJsError (portInUseMessage portToTry)), true)
    | ProbeOutcome.failed e => (Except.error e, false)
  { result :=
      onlyErrorsWithCodeCatch "ECONNREFUSED"
        (fun _ => Except.ok portToTry) afterThen.1
    disconnected := afterThen.2 }

/-! ## Concrete fixtures used by witnesses and counterexamples -/

/-- A connect function that refuses the first k attempts and then fails
with a non-connection error, as a malformed-handshake scenario. -/
def refuseThenFatal (k : Nat) (fatalErr : JsError) : Nat → AttemptOutcome Unit :=
  fun n =>
    if n < k then AttemptOutcome.error econnRefused
    else AttemptOutcome.error fatalErr

/-- A concrete non-connection (protocol) error: it carries no
ECONNREFUSED code. -/
def protocolError : JsError :=
  { code := none, message := "protocol error" }

/-- A managed runner whose every operation settles with the given result. -/
def demoRunner (nm : String) (res : Except String Unit) : SimRunner String :=
  { name := nm
    reloadAllResult := res
    reloadDirResult := fun _ => res
    exitResult := res }

/-- Three managed runners of which exactly the second fails. -/
def demoRunners : List (SimRunner String) :=
  [ demoRunner "runner1" (Except.ok ())
  , demoRunner "runner2" (Except.error "reload failed")
  , demoRunner "runner3" (Except.ok ()) ]

/-- Three companion connections of which the second has been closed. -/
def demoConns : List WsConnection :=
  [ { connId := 1, connOpen := true }
  , { connId := 2, connOpen := false }
  , { connId := 3, connOpen := true } ]

/-! ## Helper lemmas for the connection retrier -/

/-- One-step unfolding of the src/cmd/run.js retry loop. -/
theorem establishConnectionGo_succ {α : Type}
    (f : Nat → AttemptOutcome α) (r rem c : Nat) (le : Option JsError) :
    establishConnectionGo f r (rem + 1) le c =
      match f r with
      | AttemptOutcome.ok cl => (ConnResult.ok cl, c + 1)
      | AttemptOutcome.error e =>
          if isErrorWithCode "ECONNREFUSED" e then
            establishConnectionGo f (r + 1) rem (some e) (c + 1)
          else
            (ConnResult.err e, c + 1) := rfl

/-- Exit of the src/cmd/run.js retry loop with a recorded last error. -/
theorem establishConnectionGo_zero {α : Type}
    (f : Nat → AttemptOutcome α) (r c : Nat) (e : JsError) :
    establishConnectionGo f r 0 (some e) c = (ConnResult.err e, c) := rfl

/-- One-step unfolding of the legacy retry recursion. -/
theorem legacyEstablishConnectionGo_succ {α : Type}
    (f : Nat → AttemptOutcome α) (maxRetries fuel r c : Nat) :
    legacyEstablishConnectionGo f maxRetries (fuel + 1) r c =
      match f r with
      | AttemptOutcome.ok cl => (ConnResult.ok cl, c + 1)
      | AttemptOutcome.error e =>
          if isErrorWithCode "ECONNREFUSED" e then
            if maxRetries ≤ r then (ConnResult.err e, c + 1)
            else legacyEstablishConnectionGo f maxRetries fuel (r + 1) (c + 1)
          else
            (ConnResult.err e, c + 1) := rfl

/-- When every attempt is refused, the src/cmd/run.js loop consumes its
whole budget: rem + 1 further attempts from attempt index r, then fails
with the error of the final attempt. -/
theorem establishConnectionGo_always_refused {α : Type}
    (f : Nat → AttemptOutcome α) (e : Nat → JsError)
    (hrefused : ∀ n, f n = AttemptOutcome.error (e n))
    (hcode : ∀ n, isErrorWithCode "ECONNREFUSED" (e n) = true) :
    ∀ (rem r c : Nat) (le : Option JsError),
      establishConnectionGo f r (rem + 1) le c =
        (ConnResult.err (e (r + rem)), c + (rem + 1)) := by
  intro rem
  induction rem with
  | zero =>
      intro r c le
      rw [establishConnectionGo_succ, hrefused r]
      simp [hcode r, establishConnectionGo_zero]
  | succ m ih =>
      intro r c le
      rw [establishConnectionGo_succ, hrefused r]
      simp only [hcode r, if_true]
      rw [ih (r + 1) (c + 1)]
      rw [(by omega : r + 1 + m = r + (m + 1)),
        (by omega : c + 1 + (m + 1) = c + (m + 1 + 1))]

/-- When every attempt is refused, the legacy recursion also consumes its
whole budget.  Here maxRetries is r + d and the fuel is d + 1, so the
recursion performs d + 1 further attempts and fails with the error of the
final attempt (attempt index maxRetries). -/
theorem legacyEstablishConnectionGo_always_refused {α : Type}
    (f : Nat → AttemptOutcome α) (e : Nat → JsError)
    (hrefused : ∀ n, f n = AttemptOutcome.error (e n))
    (hcode : ∀ n, isErrorWithCode "ECONNREFUSED" (e n) = true) :
    ∀ (d r c : Nat),
      legacyEstablishConnectionGo f (r + d) (d + 1) r c =
        (ConnResult.err (e (r + d)), c + (d + 1)) := by
  intro d
  induction d with
  | zero =>
      intro r c
      rw [legacyEstablishConnectionGo_succ, hrefused r]
      simp [hcode r]
  | succ m ih =>
      intro r c
      rw [legacyEstablishConnectionGo_succ, hrefused r]
      simp only [hcode r, if_true]
      rw [if_neg (by omega : ¬ r + (m + 1) ≤ r)]
      have h1 : r + (m + 1) = (r + 1) + m := by omega
      rw [h1, ih (r + 1) (c + 1)]
      rw [(by omega : c + 1 + (m + 1) = c + (m + 1 + 1))]

/-- Claim C1: when every attempt fails with ECONNREFUSED, the connection
retrier of defaultFirefoxClient invokes the connect function exactly
maxRetries + 1 times and fails with the last refusal error; this holds for
the src/cmd/run.js loop and the legacy recursion alike.  In particular,
with maxRetries = 2 and always-refused there are exactly 3 attempts and
the call fails with the refusal error, and with maxRetries = 3 and three
refusals followed by a success there are exactly 4 attempts and the call
resolves with the connected client. -/
theorem c1_connection_retrier_attempt_counts
    (maxRetries : Nat) (e : Nat → JsError) (f : Nat → AttemptOutcome Unit)
    (hrefused : ∀ n, f n = AttemptOutcome.error (e n))
    (hcode : ∀ n, isErrorWithCode "ECONNREFUSED" (e n) = true) :
    establishConnection f maxRetries =
        (ConnResult.err (e maxRetries), maxRetries + 1)
    ∧ legacyEstablishConnection f maxRetries =
        (ConnResult.err (e maxRetries), maxRetries + 1)
    ∧ establishConnection alwaysRefused 2 = (ConnResult.err econnRefused, 3)
    ∧ legacyEstablishConnection alwaysRefused 2 = (ConnResult.err econnRefused, 3)
    ∧ establishConnection (refuseThenOk 3) 3 = (ConnResult.ok (), 4)
    ∧ legacyEstablishConnection (refuseThenOk 3) 3 = (ConnResult.ok (), 4) := by
  refine ⟨?_, ?_, by decide, by decide, by decide, by decide⟩
  · have h := establishConnectionGo_always_refused f e hrefused hcode
      maxRetries 0 0 none
    simpa [establishConnection] using h
  · have h := legacyEstablishConnectionGo_always_refused f e hrefused hcode
      maxRetries 0 0
    simpa [legacyEstablishConnection] using h

/-- Witness for C1 at a concrete always-refused connect function with
maxRetries = 2: exactly 3 attempts, failing with the refusal error. -/
theorem c1_connection_retrier_attempt_counts_witness :
    establishConnection alwaysRefused 2 = (ConnResult.err econnRefused, 3)
    ∧ legacyEstablishConnection alwaysRefused 2 =
        (ConnResult.err econnRefused, 3) := by
  have h := c1_connection_retrier_attempt_counts 2 (fun _ => econnRefused)
    alwaysRefused (fun _ => rfl) (fun _ => rfl)
  exact ⟨h.1, h.2.1⟩

/-- When the first k attempts are refused and attempt k fails with a
non-connection error, the src/cmd/run.js loop aborts right after attempt
k: k + 1 attempts in total, failing with the fatal error, for any
remaining budget larger than k. -/
theorem establishConnectionGo_fatal {α : Type}
    (f : Nat → AttemptOutcome α) (fatalErr : JsError)
    (hfatalCode : isErrorWithCode "ECONNREFUSED" fatalErr = false) :
    ∀ (k r rem c : Nat) (le : Option JsError),
      (∀ n, n < k → ∃ en, f (r + n) = AttemptOutcome.error en
        ∧ isErrorWithCode "ECONNREFUSED" en = true) →
      f (r + k) = AttemptOutcome.error fatalErr →
      k < rem →
      establishConnectionGo f r rem le c = (ConnResult.err fatalErr, c + (k + 1)) := by
  intro k
  induction k with
  | zero =>
      intro r rem c le _ hfatal hlt
      obtain ⟨m, rfl⟩ : ∃ m, rem = m + 1 := ⟨rem - 1, by omega⟩
      rw [establishConnectionGo_succ]
      simp only [Nat.add_zero] at hfatal
      rw [hfatal]
      simp [hfatalCode]
  | succ j ih =>
      intro r rem c le hrefused hfatal hlt
      obtain ⟨m, rfl⟩ : ∃ m, rem = m + 1 := ⟨rem - 1, by omega⟩
      obtain ⟨e0, he0, hc0⟩ := hrefused 0 (by omega)
      rw [establishConnectionGo_succ]
      rw [(by omega : r + 0 = r)] at he0
      rw [he0]
      simp only [hc0, if_true]
      have hres : establishConnectionGo f (r + 1) m (some e0) (c + 1) =
          (ConnResult.err fatalErr, (c + 1) + (j + 1)) := by
        refine ih (r + 1) m (c + 1) (some e0) ?_ ?_ (by omega)
        · intro n hn
          obtain ⟨en, hen, hcn⟩ := hrefused (n + 1) (by omega)
          exact ⟨en, by rw [(by omega : r + 1 + n = r + (n + 1))]; exact hen, hcn⟩
        · rw [(by omega : r + 1 + j = r + (j + 1))]
          exact hfatal
      rw [hres, (by omega : c + 1 + (j + 1) = c + (j + 1 + 1))]

/-- When the first k attempts are refused and attempt k fails with a
non-connection error, the legacy recursion also aborts right after attempt
k with that error, provided the budget allows reaching attempt k
(maxRetries = r + d with k not larger than d). -/
theorem legacyEstablishConnectionGo_fatal {α : Type}
    (f : Nat → AttemptOutcome α) (fatalErr : JsError)
    (hfatalCode : isErrorWithCode "ECONNREFUSED" fatalErr = false) :
    ∀ (k r d c : Nat),
      (∀ n, n < k → ∃ en, f (r + n) = AttemptOutcome.error en
        ∧ isErrorWithCode "ECONNREFUSED" en = true) →
      f (r + k) = AttemptOutcome.error fatalErr →
      k ≤ d →
      legacyEstablishConnectionGo f (r + d) (d + 1) r c =
        (ConnResult.err fatalErr, c + (k + 1)) := by
  intro k
  induction k with
  | zero =>
      intro r d c _ hfatal _
      rw [legacyEstablishConnectionGo_succ]
      simp only [Nat.add_zero] at hfatal
      rw [hfatal]
      simp [hfatalCode]
  | succ j ih =>
      intro r d c hrefused hfatal hle
      obtain ⟨m, rfl⟩ : ∃ m, d = m + 1 := ⟨d - 1, by omega⟩
      obtain ⟨e0, he0, hc0⟩ := hrefused 0 (by omega)
      rw [legacyEstablishConnectionGo_succ]
      rw [(by omega : r + 0 = r)] at he0
      rw [he0]
      simp only [hc0, if_true]
      rw [if_neg (by omega : ¬ r + (m + 1) ≤ r)]
      have harg : r + (m + 1) = (r + 1) + m := by omega
      rw [harg]
      have hres : legacyEstablishConnectionGo f (r + 1 + m) (m + 1) (r + 1) (c + 1) =
          (ConnResult.err fatalErr, (c + 1) + (j + 1)) := by
        refine ih (r + 1) m (c + 1) ?_ ?_ (by omega)
        · intro n hn
          obtain ⟨en, hen, hcn⟩ := hrefused (n + 1) (by omega)
          exact ⟨en, by rw [(by omega : r + 1 + n = r + (n + 1))]; exact hen, hcn⟩
        · rw [(by omega : r + 1 + j = r + (j + 1))]
          exact hfatal
      rw [hres, (by omega : c + 1 + (j + 1) = c + (j + 1 + 1))]

/-- Claim C4: the connection retrier retries only on ECONNREFUSED.  If,
after k refused attempts (k within the retry budget), attempt k fails
with any other error, both retry-loop versions abort immediately with
that error, having invoked the connect function exactly k + 1 times. -/
theorem c4_retry_only_on_connection_refused
    (maxRetries k : Nat) (f : Nat → AttemptOutcome Unit) (fatalErr : JsError)
    (hk : k ≤ maxRetries)
    (hrefused : ∀ n, n < k → ∃ en, f n = AttemptOutcome.error en
      ∧ isErrorWithCode "ECONNREFUSED" en = true)
    (hfatal : f k = AttemptOutcome.error fatalErr)
    (hfatalCode : isErrorWithCode "ECONNREFUSED" fatalErr = false) :
    establishConnection f maxRetries = (ConnResult.err fatalErr, k + 1)
    ∧ legacyEstablishConnection f maxRetries =
        (ConnResult.err fatalErr, k + 1) := by
  constructor
  · have h := establishConnectionGo_fatal f fatalErr hfatalCode k 0
      (maxRetries + 1) 0 none
      (by simpa using hrefused) (by simpa using hfatal) (by omega)
    simpa [establishConnection] using h
  · have h := legacyEstablishConnectionGo_fatal f fatalErr hfatalCode k 0
      maxRetries 0 (by simpa using hrefused) (by simpa using hfatal) hk
    simpa [legacyEstablishConnection] using h

/-- Witness for C4: one refused attempt, then a protocol error, with two
retries still in the budget: both loops stop after 2 attempts and fail
with the protocol error. -/
theorem c4_retry_only_on_connection_refused_witness :
    establishConnection (refuseThenFatal 1 protocolError) 3 =
        (ConnResult.err protocolError, 2)
    ∧ legacyEstablishConnection (refuseThenFatal 1 protocolError) 3 =
        (ConnResult.err protocolError, 2) := by
  have h := c4_retry_only_on_connection_refused 3 1
    (refuseThenFatal 1 protocolError) protocolError (by decide)
    (fun n hn => ⟨econnRefused, by
      have hn0 : n = 0 := by omega
      rw [hn0]; rfl, rfl⟩)
    (by decide) (by decide)
  exact h

/-! ## MultiExtensionRunner theorems -/

/-- Claim C2: reloadAllExtensions and reloadExtensionBySourceDir resolve
with exactly one ExtensionRunnerReloadResult per managed runner (the
overall call never rejects: both functions are total): the i-th outcome
names the i-th runner, carries no error exactly when that runner reload
fulfilled and carries that runner error when it rejected, and one runner
failure neither removes nor poisons the outcomes of the others; over the
three demo runners with runner 2 failing there are three outcomes of
which exactly one carries an error. -/
theorem c2_reload_outcomes_per_runner {ε : Type} (runners : List (SimRunner ε))
    (dir : String) :
    (reloadAllExtensions runners).length = runners.length
    ∧ (reloadExtensionBySourceDir runners dir).length = runners.length
    ∧ (∀ (i : Nat) (r : SimRunner ε), runners[i]? = some r →
        ∃ o : ExtensionRunnerReloadResult ε,
          (reloadAllExtensions runners)[i]? = some o
          ∧ o.runnerName = r.name
          ∧ (r.reloadAllResult = Except.ok () → o.reloadError = none)
          ∧ ∀ e, r.reloadAllResult = Except.error e → o.reloadError = some e)
    ∧ (∀ (i : Nat) (r : SimRunner ε), runners[i]? = some r →
        ∃ o : ExtensionRunnerReloadResult ε,
          (reloadExtensionBySourceDir runners dir)[i]? = some o
          ∧ o.runnerName = r.name
          ∧ o.sourceDir = some dir
          ∧ (r.reloadDirResult dir = Except.ok () → o.reloadError = none)
          ∧ ∀ e, r.reloadDirResult dir = Except.error e → o.reloadError = some e)
    ∧ (reloadAllExtensions demoRunners).map (fun o => o.reloadError)
        = [none, some "reload failed", none]
    ∧ ((reloadAllExtensions demoRunners).filter
        (fun o => o.reloadError.isSome)).length = 1 := by
  refine ⟨by simp [reloadAllExtensions], by simp [reloadExtensionBySourceDir],
    ?_, ?_, by decide, by decide⟩
  · intro i r h
    cases hres : r.reloadAllResult with
    | ok u =>
        cases u
        refine ⟨{ runnerName := r.name, sourceDir := none, reloadError := none },
          ?_, rfl, fun _ => rfl, fun e he => Except.noConfusion he⟩
        simp [reloadAllExtensions, List.getElem?_map, h, hres]
    | error e0 =>
        refine ⟨{ runnerName := r.name, sourceDir := none, reloadError := some e0 },
          ?_, rfl, fun hok => Except.noConfusion hok, ?_⟩
        · simp [reloadAllExtensions, List.getElem?_map, h, hres]
        · intro e he
          injection he with h1
          subst h1
          rfl
  · intro i r h
    cases hres : r.reloadDirResult dir with
    | ok u =>
        cases u
        refine ⟨{ runnerName := r.name, sourceDir := some dir, reloadError := none },
          ?_, rfl, rfl, fun _ => rfl, fun e he => Except.noConfusion he⟩
        simp [reloadExtensionBySourceDir, List.getElem?_map, h, hres]
    | error e0 =>
        refine ⟨{ runnerName := r.name, sourceDir := some dir, reloadError := some e0 },
          ?_, rfl, rfl, fun hok => Except.noConfusion hok, ?_⟩
        · simp [reloadExtensionBySourceDir, List.getElem?_map, h, hres]
        · intro e he
          injection he with h1
          subst h1
          rfl

/-- Witness for C2: over the demo runners, the second outcome names
runner 2 and carries its reload error. -/
theorem c2_reload_outcomes_per_runner_witness :
    ∃ o, (reloadAllExtensions demoRunners)[1]? = some o
      ∧ o.runnerName = "runner2" ∧ o.reloadError = some "reload failed" := by
  obtain ⟨o, ho, hname, _, herr⟩ :=
    (c2_reload_outcomes_per_runner demoRunners "/src").2.2.1 1
      (demoRunner "runner2" (Except.error "reload failed")) rfl
  exact ⟨o, ho, by rw [hname]; rfl, herr "reload failed" rfl⟩

/-- Promise.all over settled unit promises fulfils exactly when every
member fulfilled. -/
theorem promiseAllUnit_ok_iff {ε : Type} (ps : List (Except ε Unit)) :
    promiseAllUnit ps = Except.ok () ↔ ∀ p ∈ ps, p = Except.ok () := by
  induction ps with
  | nil => simp [promiseAllUnit]
  | cons p rest ih =>
      cases p with
      | ok u => cases u; simp [promiseAllUnit, ih]
      | error e => simp [promiseAllUnit]

/-- When Promise.all over settled unit promises rejects, its error is the
error of some member. -/
theorem promiseAllUnit_error_mem {ε : Type} (ps : List (Except ε Unit)) (e : ε) :
    promiseAllUnit ps = Except.error e → ∃ p ∈ ps, p = Except.error e := by
  induction ps with
  | nil => intro h; cases h
  | cons p rest ih =>
      cases p with
      | ok u =>
          intro h
          obtain ⟨q, hq, he⟩ := ih h
          exact ⟨q, List.mem_cons_of_mem _ hq, he⟩
      | error e0 =>
          intro h
          simp only [promiseAllUnit, Except.error.injEq] at h
          exact ⟨Except.error e0, List.mem_cons_self _ _, by rw [h]⟩

/-- Claim C3 counterexample: over the demo runners (runner 2 exits with
an error), MultiExtensionRunner.exit awaits Promise.all over the member
exits and therefore itself rejects, contrary to the claim that one member
rejection does not make the overall exit() reject. -/
theorem c3_exit_rejects_counterexample :
    (multiExit demoRunners).1 = Except.error "reload failed"
    ∧ ¬ (multiExit demoRunners).1 = Except.ok () := by
  decide

/-- Claim C3 amended: exit() initiates exit on every member before
awaiting anything (one initiated exit per member), and the overall call
fulfils exactly when every member exit fulfilled; when some member
rejects, the overall exit() rejects with a failing member error
(Promise.all semantics) instead of absorbing it. -/
theorem c3_exit_fanout_amended {ε : Type} (runners : List (SimRunner ε)) :
    (multiExit runners).2 = runners.length
    ∧ ((multiExit runners).1 = Except.ok ()
        ↔ ∀ r ∈ runners, r.exitResult = Except.ok ())
    ∧ ∀ e, (multiExit runners).1 = Except.error e →
        ∃ r ∈ runners, r.exitResult = Except.error e := by
  refine ⟨rfl, ?_, ?_⟩
  · rw [show (multiExit runners).1
        = promiseAllUnit (runners.map (fun r => r.exitResult)) from rfl]
    rw [promiseAllUnit_ok_iff]
    constructor
    · intro h r hr
      exact h _ (List.mem_map_of_mem _ hr)
    · intro h p hp
      obtain ⟨r, hr, rfl⟩ := List.mem_map.mp hp
      exact h r hr
  · intro e he
    rw [show (multiExit runners).1
        = promiseAllUnit (runners.map (fun r => r.exitResult)) from rfl] at he
    obtain ⟨p, hp, hpe⟩ := promiseAllUnit_error_mem _ e he
    obtain ⟨r, hr, rfl⟩ := List.mem_map.mp hp
    exact ⟨r, hr, hpe⟩

/-- Witness for C3 amended: the demo multi-runner exit error is the exit
error of one of its members. -/
theorem c3_exit_fanout_amended_witness :
    ∃ r ∈ demoRunners, r.exitResult = Except.error "reload failed" :=
  (c3_exit_fanout_amended demoRunners).2.2 "reload failed" rfl

/-! ## Default retry policy theorems -/

/-- Claim C5 counterexample: the default retry policy is not applied
uniformly wherever a Firefox connection is retried: src/cmd/run.js
defaults to maxRetries 250 while the legacy run module defaults to
maxRetries 25. -/
theorem c5_default_policy_counterexample :
    defaultFirefoxClientMaxRetries = 250
    ∧ legacyDefaultFirefoxClientMaxRetries = 25
    ∧ legacyDefaultFirefoxClientMaxRetries ≠ defaultFirefoxClientMaxRetries := by
  decide

/-- Claim C5 amended: with no caller-supplied configuration,
defaultFirefoxClient in src/cmd/run.js retries on a 120 ms interval with
maxRetries 250, so an always-refused connection is attempted 251 times
(roughly a 30 s budget); the policy is not uniform across the source:
the legacy run module defaults to maxRetries 25 (26 attempts) with the
same 120 ms interval. -/
theorem c5_default_policy_amended :
    defaultFirefoxClientRetryInterval = 120
    ∧ defaultFirefoxClientMaxRetries = 250
    ∧ legacyDefaultFirefoxClientRetryInterval = 120
    ∧ legacyDefaultFirefoxClientMaxRetries = 25
    ∧ (establishConnection alwaysRefused defaultFirefoxClientMaxRetries).2 = 251
    ∧ (legacyEstablishConnection alwaysRefused
        legacyDefaultFirefoxClientMaxRetries).2 = 26 := by
  refine ⟨rfl, rfl, rfl, rfl, ?_, ?_⟩
  · have h := establishConnectionGo_always_refused alwaysRefused
      (fun _ => econnRefused) (fun _ => rfl) (fun _ => rfl) 250 0 0 none
    have h2 : establishConnection alwaysRefused 250 =
        (ConnResult.err econnRefused, 251) := by
      simpa [establishConnection] using h
    rw [show defaultFirefoxClientMaxRetries = 250 from rfl, h2]
  · have h := legacyEstablishConnectionGo_always_refused alwaysRefused
      (fun _ => econnRefused) (fun _ => rfl) (fun _ => rfl) 25 0 0
    have h2 : legacyEstablishConnection alwaysRefused 25 =
        (ConnResult.err econnRefused, 26) := by
      simpa [legacyEstablishConnection] using h
    rw [show legacyDefaultFirefoxClientMaxRetries = 25 from rfl, h2]

/-! ## Cleanup barrier theorems -/

/-- Resolving further member promises cannot un-complete the barrier. -/
theorem cleanupBarrierAllResolved_mono (n : Nat) (res res' : List Nat)
    (hsub : ∀ i, i ∈ res → i ∈ res') :
    cleanupBarrierAllResolved n res = true →
    cleanupBarrierAllResolved n res' = true := by
  intro h
  simp only [cleanupBarrierAllResolved, List.all_eq_true, decide_eq_true_eq] at *
  intro i hi
  exact hsub i (h i hi)

/-- Folding the barrier step over a trace of member-cleanup events from
an arbitrary state: the visited members accumulate (in reverse order) in
front of the previously resolved ones, and the user callback runs one
further time exactly when the trace completes a barrier that was not
complete before it. -/
theorem cleanupBarrier_foldl (n : Nat) :
    ∀ (evs res : List Nat) (c : Nat),
      (evs.foldl (cleanupBarrierStep n)
          { resolved := res, callbackCalls := c }).resolved
        = evs.reverse ++ res
      ∧ (evs.foldl (cleanupBarrierStep n)
          { resolved := res, callbackCalls := c }).callbackCalls
        = c + (if cleanupBarrierAllResolved n (evs.reverse ++ res)
                 && !(cleanupBarrierAllResolved n res) then 1 else 0) := by
  intro evs
  induction evs with
  | nil =>
      intro res c
      constructor
      · simp
      · simp
  | cons a evs ih =>
      intro res c
      have hstep : cleanupBarrierStep n { resolved := res, callbackCalls := c } a
          = { resolved := a :: res
              callbackCalls := c +
                (if cleanupBarrierAllResolved n (a :: res)
                   && !(cleanupBarrierAllResolved n res) then 1 else 0) } := rfl
      have hrev : (a :: evs).reverse ++ res = evs.reverse ++ (a :: res) := by
        simp
      obtain ⟨ih1, ih2⟩ := ih (a :: res)
        (c + (if cleanupBarrierAllResolved n (a :: res)
                && !(cleanupBarrierAllResolved n res) then 1 else 0))
      constructor
      · rw [List.foldl_cons, hstep, ih1, hrev]
      · rw [List.foldl_cons, hstep, ih2, hrev]
        have hm1 : cleanupBarrierAllResolved n res = true →
            cleanupBarrierAllResolved n (a :: res) = true :=
          cleanupBarrierAllResolved_mono n res (a :: res)
            (fun i hi => List.mem_cons_of_mem a hi)
        have hm2 : cleanupBarrierAllResolved n (a :: res) = true →
            cleanupBarrierAllResolved n (evs.reverse ++ (a :: res)) = true :=
          cleanupBarrierAllResolved_mono n (a :: res) (evs.reverse ++ (a :: res))
            (fun i hi => List.mem_append_right _ hi)
        cases hA : cleanupBarrierAllResolved n res with
        | false =>
            cases hB : cleanupBarrierAllResolved n (a :: res) with
            | false => simp [hA, hB]
            | true =>
                have hC := hm2 hB
                simp [hA, hB, hC]
        | true =>
            have hB := hm1 hA
            have hC := hm2 hB
            simp [hA, hB, hC]

/-- Claim C6: over every trace of member cleanup events, the callback
registered with MultiExtensionRunner.registerCleanup runs exactly once
when every member runner index below memberCount appears in the trace
(with zero members that is immediate), and never runs at all otherwise;
applied to every prefix of a trace this says the callback fires only
after all members have reported cleanup, and then exactly once. -/
theorem c6_register_cleanup_barrier (n : Nat) (events : List Nat) :
    registerCleanupCalls n events = if ∀ i < n, i ∈ events then 1 else 0 := by
  have h := (cleanupBarrier_foldl n events []
    (if cleanupBarrierAllResolved n [] then 1 else 0)).2
  simp only [List.append_nil] at h
  rw [registerCleanupCalls, h]
  cases hF0 : cleanupBarrierAllResolved n [] with
  | true =>
      have hn : n = 0 := by
        by_contra hn
        have h0 : (0 : Nat) ∈ List.range n := by
          simp [List.mem_range]
          omega
        simp only [cleanupBarrierAllResolved, List.all_eq_true,
          decide_eq_true_eq] at hF0
        exact absurd (hF0 0 h0) (by simp)
      subst hn
      simp
  | false =>
      have hrev : cleanupBarrierAllResolved n events.reverse
          = cleanupBarrierAllResolved n events := by
        simp [cleanupBarrierAllResolved]
      by_cases hP : ∀ i < n, i ∈ events
      · have hT : cleanupBarrierAllResolved n events = true := by
          simp only [cleanupBarrierAllResolved, List.all_eq_true,
            decide_eq_true_eq]
          intro i hi
          exact hP i (List.mem_range.mp hi)
        simp only [h, hF0, hrev, hT]
        rw [if_pos hP]
        decide
      · have hT : cleanupBarrierAllResolved n events = false := by
          rw [Bool.eq_false_iff]
          intro hcontra
          simp only [cleanupBarrierAllResolved, List.all_eq_true,
            decide_eq_true_eq] at hcontra
          exact hP (fun i hi => hcontra i (List.mem_range.mpr hi))
        simp only [h, hF0, hrev, hT]
        rw [if_neg hP]
        decide

/-! ## Install-phase and install-file theorems -/

/-- Claim C7: when installTemporaryAddon fails because the Firefox
version lacks temporary-install support, the run command fails with a
WebExtError whose message instructs the caller to use the profile
pre-install path (the pre-install fallback flag of the respective module
version), while any other (generic) error passes through unchanged and
is a different error shape than the WebExtError guidance. -/
theorem c7_remote_install_unsupported_guidance :
    (∀ msg, installAsTemporaryAddonPhase
        (Except.error (CmdError.remoteTempInstallNotSupported msg))
      = Except.error (CmdError.webExtError tempInstallNotSupportedMessage))
    ∧ (∃ s, tempInstallNotSupportedMessage = s ++ "use --pre-install")
    ∧ (∀ msg, legacyInstallAsTemporaryAddonPhase
        (Except.error (CmdError.remoteTempInstallNotSupported msg))
      = Except.error (CmdError.webExtError legacyTempInstallNotSupportedMessage))
    ∧ (∃ s, legacyTempInstallNotSupportedMessage = s ++ "use --install-to-profile")
    ∧ (∀ msg, installAsTemporaryAddonPhase
        (Except.error (CmdError.otherError msg))
      = Except.error (CmdError.otherError msg))
    ∧ ∀ msg msg2, CmdError.webExtError msg ≠ CmdError.otherError msg2 := by
  refine ⟨fun msg => rfl,
    ⟨"Temporary add-on installation is not supported in this version " ++
      "of Firefox (you need Firefox 49 or higher). For older Firefox " ++
      "versions, ", by decide⟩,
    fun msg => rfl,
    ⟨"Temporary add-on installation is not supported in this version " ++
      "of Firefox (you need Firefox 49 or higher). For older Firefox " ++
      "versions, ", by decide⟩,
    fun msg => rfl,
    fun msg msg2 h => CmdError.noConfusion h⟩

/-- Witness for C7 at a concrete rejection. -/
theorem c7_remote_install_unsupported_guidance_witness :
    installAsTemporaryAddonPhase
        (Except.error (CmdError.remoteTempInstallNotSupported ""))
      = Except.error (CmdError.webExtError tempInstallNotSupportedMessage) :=
  c7_remote_install_unsupported_guidance.1 ""

/-- A broadcast delivers nothing to a connection id that is not in the
pool. -/
theorem chromiumBroadcast_countP_zero (t : List WsConnection) (x : Nat)
    (hx : x ∉ t.map (fun c => c.connId)) :
    (chromiumReloadAllExtensions t).countP (fun d => d.1 == x) = 0 := by
  induction t with
  | nil => rfl
  | cons a t ih =>
      have hxa : x ≠ a.connId := by
        intro h
        exact hx (by simp [h])
      have hxt : x ∉ t.map (fun c => c.connId) := by
        intro h
        exact hx (by simp [h])
      cases ho : a.connOpen with
      | false =>
          have hb : chromiumReloadAllExtensions (a :: t)
              = chromiumReloadAllExtensions t := by
            simp [chromiumReloadAllExtensions, wssBroadcast, List.filter_cons, ho]
          rw [hb]
          exact ih hxt
      | true =>
          have hb : chromiumReloadAllExtensions (a :: t)
              = (a.connId, webExtReloadAllExtensionsMessage)
                  :: chromiumReloadAllExtensions t := by
            simp [chromiumReloadAllExtensions, wssBroadcast, List.filter_cons, ho]
          rw [hb, List.countP_cons, ih hxt]
          simp [Ne.symm hxa]

/-- With pairwise-distinct connection ids, every open connection receives
the broadcast exactly once and every closed connection receives
nothing. -/
theorem chromiumBroadcast_countP (conns : List WsConnection)
    (hids : (conns.map (fun c => c.connId)).Nodup) :
    ∀ c ∈ conns,
      (chromiumReloadAllExtensions conns).countP (fun d => d.1 == c.connId)
        = if c.connOpen then 1 else 0 := by
  induction conns with
  | nil => intro c hc; cases hc
  | cons a t ih =>
      have hpair := List.nodup_cons.mp
        (show (a.connId :: t.map (fun c => c.connId)).Nodup from hids)
      have hna : a.connId ∉ t.map (fun c => c.connId) := hpair.1
      have hnt : (t.map (fun c => c.connId)).Nodup := hpair.2
      intro c hc
      rcases List.mem_cons.mp hc with hca | hct
      · subst hca
        cases ho : c.connOpen with
        | false =>
            have hb : chromiumReloadAllExtensions (c :: t)
                = chromiumReloadAllExtensions t := by
              simp [chromiumReloadAllExtensions, wssBroadcast,
                List.filter_cons, ho]
            rw [hb]
            simpa using chromiumBroadcast_countP_zero t c.connId hna
        | true =>
            have hb : chromiumReloadAllExtensions (c :: t)
                = (c.connId, webExtReloadAllExtensionsMessage)
                    :: chromiumReloadAllExtensions t := by
              simp [chromiumReloadAllExtensions, wssBroadcast,
                List.filter_cons, ho]
            rw [hb, List.countP_cons,
              chromiumBroadcast_countP_zero t c.connId hna]
            simp
      · have hne : a.connId ≠ c.connId := by
          intro h
          exact hna (h ▸ List.mem_map_of_mem (fun c => c.connId) hct)
        cases ho : a.connOpen with
        | false =>
            have hb : chromiumReloadAllExtensions (a :: t)
                = chromiumReloadAllExtensions t := by
              simp [chromiumReloadAllExtensions, wssBroadcast,
                List.filter_cons, ho]
            rw [hb]
            exact ih hnt c hct
        | true =>
            have hb : chromiumReloadAllExtensions (a :: t)
                = (a.connId, webExtReloadAllExtensionsMessage)
                    :: chromiumReloadAllExtensions t := by
              simp [chromiumReloadAllExtensions, wssBroadcast,
                List.filter_cons, ho]
            rw [hb, List.countP_cons, ih hnt c hct]
            simp [hne]

/-- Claim C8: on the Chromium runner variant, reloadExtensionBySourceDir
for any managed dir performs exactly the reloadAllExtensions broadcast;
each broadcast sends one webExtReloadAllExtensions frame per currently
open companion connection (none to closed ones), so every delivered frame
is the reload-all control message. -/
theorem c8_chromium_reload_broadcast (conns : List WsConnection) (dir : String)
    (hids : (conns.map (fun c => c.connId)).Nodup) :
    chromiumReloadExtensionBySourceDir conns dir
        = chromiumReloadAllExtensions conns
    ∧ (∀ d ∈ chromiumReloadAllExtensions conns,
        d.2 = webExtReloadAllExtensionsMessage)
    ∧ (chromiumReloadAllExtensions conns).length
        = (conns.filter (fun c => c.connOpen)).length
    ∧ ∀ c ∈ conns,
        (chromiumReloadAllExtensions conns).countP (fun d => d.1 == c.connId)
          = if c.connOpen then 1 else 0 := by
  refine ⟨rfl, ?_, ?_, chromiumBroadcast_countP conns hids⟩
  · intro d hd
    simp only [chromiumReloadAllExtensions, wssBroadcast, List.mem_map] at hd
    obtain ⟨c, _, rfl⟩ := hd
    rfl
  · simp [chromiumReloadAllExtensions, wssBroadcast]

/-- Witness for C8 over three concrete connections of which the second is
closed: open connections 1 and 3 each receive the broadcast once, closed
connection 2 receives nothing. -/
theorem c8_chromium_reload_broadcast_witness :
    (chromiumReloadAllExtensions demoConns).countP (fun d => d.1 == 1) = 1
    ∧ (chromiumReloadAllExtensions demoConns).countP (fun d => d.1 == 2) = 0
    ∧ (chromiumReloadAllExtensions demoConns).countP (fun d => d.1 == 3) = 1 := by
  have h := (c8_chromium_reload_broadcast demoConns "/fake/sourceDir"
    (by decide)).2.2.2
  refine ⟨?_, ?_, ?_⟩
  · simpa using h { connId := 1, connOpen := true } (by decide)
  · simpa using h { connId := 2, connOpen := false } (by decide)
  · simpa using h { connId := 3, connOpen := true } (by decide)

/-- Claim C9: a Firefox shadow (proxy) install for a manifest carrying a
gecko application id resolves after writing exactly one plain-text file
into the profile extensions directory, named by the extension id, whose
content is the extension source directory path, and copies no packaged
artifact. -/
theorem c9_shadow_install_writes_source_path
    (manifestData : ManifestDataModel) (profile : ProfileModel)
    (extensionPath sourceDir dir id : String)
    (hid : manifestData.geckoId = some id)
    (hdir : profile.extensionsDir = some dir) :
    ∃ ops, installExtension manifestData profile extensionPath sourceDir true
        = Except.ok ops
      ∧ ops.filter (fun op => op.isWriteTextFile)
          = [FsOp.writeTextFile (dir ++ "/" ++ id) sourceDir]
      ∧ ops.countP (fun op => op.isCopyFile) = 0 := by
  cases hex : profile.extensionsDirExists with
  | true =>
      refine ⟨[FsOp.writeTextFile (dir ++ "/" ++ id) sourceDir], ?_, rfl, rfl⟩
      simp [installExtension, hdir, hid, hex]
  | false =>
      refine ⟨[FsOp.mkdir dir, FsOp.writeTextFile (dir ++ "/" ++ id) sourceDir],
        ?_, rfl, rfl⟩
      simp [installExtension, hdir, hid, hex]

/-- Witness for C9 at a concrete manifest, profile and source dir. -/
theorem c9_shadow_install_writes_source_path_witness :
    ∃ ops, installExtension { geckoId := some "minimal-example@web-ext" }
        { extensionsDir := some "/profile/extensions", extensionsDirExists := true }
        "/src/ext" "/src/ext" true = Except.ok ops
      ∧ ops.filter (fun op => op.isWriteTextFile)
          = [FsOp.writeTextFile ("/profile/extensions" ++ "/" ++ "minimal-example@web-ext")
              "/src/ext"]
      ∧ ops.countP (fun op => op.isCopyFile) = 0 :=
  c9_shadow_install_writes_source_path
    { geckoId := some "minimal-example@web-ext" }
    { extensionsDir := some "/profile/extensions", extensionsDirExists := true }
    "/src/ext" "/src/ext" "/profile/extensions" "minimal-example@web-ext"
    rfl rfl

/-- Claim C10: the default remote-port finder resolves with the candidate
port exactly when the probe connection is refused with ECONNREFUSED; when
the probe connects, it disconnects the probe client and fails with the
port-in-use WebExtError, and any other probe error is re-raised — it
never resolves with a different port. -/
theorem c10_port_finder_only_resolves_on_refusal (portToTry : Nat) (e : JsError) :
    (defaultRemotePortFinder portToTry ProbeOutcome.connected).result
        = Except.error (webExtJsError (portInUseMessage portToTry))
    ∧ (defaultRemotePortFinder portToTry ProbeOutcome.connected).disconnected
        = true
    ∧ (isErrorWithCode "ECONNREFUSED" e = true →
        defaultRemotePortFinder portToTry (ProbeOutcome.failed e)
          = { result := Except.ok portToTry, disconnected := false })
    ∧ (isErrorWithCode "ECONNREFUSED" e = false →
        (defaultRemotePortFinder portToTry (ProbeOutcome.failed e)).result
            = Except.error e
        ∧ (defaultRemotePortFinder portToTry (ProbeOutcome.failed e)).disconnected
            = false)
    ∧ ∀ (probe : ProbeOutcome) (p : Nat),
        (defaultRemotePortFinder portToTry probe).result = Except.ok p →
        p = portToTry ∧ ∃ e2, probe = ProbeOutcome.failed e2
          ∧ isErrorWithCode "ECONNREFUSED" e2 = true := by
  refine ⟨rfl, rfl, ?_, ?_, ?_⟩
  · intro h
    simp [defaultRemotePortFinder, onlyErrorsWithCodeCatch, h]
  · intro h
    constructor
    · simp [defaultRemotePortFinder, onlyErrorsWithCodeCatch, h]
    · rfl
  · intro probe p hok
    cases probe with
    | connected =>
        exfalso
        simp [defaultRemotePortFinder, onlyErrorsWithCodeCatch,
          isErrorWithCode, webExtJsError] at hok
    | failed e2 =>
        cases hc : isErrorWithCode "ECONNREFUSED" e2 with
        | true =>
            simp [defaultRemotePortFinder, onlyErrorsWithCodeCatch, hc] at hok
            exact ⟨hok.symm, e2, rfl, hc⟩
        | false =>
            exfalso
            simp [defaultRemotePortFinder, onlyErrorsWithCodeCatch, hc] at hok

/-- Witness for C10: a refused probe on port 6000 resolves with 6000 and
never disconnects a probe client. -/
theorem c10_port_finder_only_resolves_on_refusal_witness :
    defaultRemotePortFinder 6000 (ProbeOutcome.failed econnRefused)
      = { result := Except.ok 6000, disconnected := false } :=
  (c10_port_finder_only_resolves_on_refusal 6000 econnRefused).2.2.1 (by decide)

end WebExt
